import Mathlib

set_option maxRecDepth 4000

/-!
Shallow embedding of the Caffeine Machine chat relay.

The repository contains two nearly identical server endpoints:
* `src/functions/api/chat.js` — a Cloudflare Pages Function (`onRequestPost`,
  `onRequestOptions`), embedded below in namespace `ChatFn`;
* `src/worker.js` — a Cloudflare Worker (`fetch`), embedded below in
  namespace `Worker`.

External effects are modelled as oracle inputs:
* the result of `await request.json()` is an `Except String JVal`
  (`.error msg` means the parse threw, carrying the JS error message);
* the upstream Gemini call is an `Upstream` value: either the transport
  threw (`unreachable`), or a response arrived with an HTTP status, a raw
  body text, and the (deterministic) result of `JSON.parse` on that text;
* the environment variable `API_KEY_caffine` is a `String`, where the empty
  string stands for an unset or empty (JS-falsy) variable.

A handler returns the client-facing `Resp` together with an
`Option OutboundCall` recording whether the outbound upstream request was
issued and, when it was, its URL and JSON body. JS exceptions are modelled
with `Except String`: in `ChatFn.onRequestPost` an `.error` is an uncaught
exception escaping the function; in `Worker.fetch` the whole body sits in a
`try`/`catch`, so exceptions are converted to the 500 response the catch
block builds.
-/

/-- A JavaScript value as it can appear in a parsed JSON document, plus the
`undefined` value produced by missing-property access. Numbers are modelled
as integers (the relay never computes with numbers, it only forwards them
and tests truthiness). Parsed JSON objects carry each key at most once, so
first-match field lookup is exact. -/
inductive JVal where
  | jundefined : JVal
  | jnull : JVal
  | jbool : Bool → JVal
  | jnum : Int → JVal
  | jstr : String → JVal
  | jarr : List JVal → JVal
  | jobj : List (String × JVal) → JVal

/-- First-match lookup of a field in an object literal; absent fields read
as `undefined`, as in JS. -/
def lookupField : List (String × JVal) → String → JVal
  | [], _ => .jundefined
  | (k2, v) :: rest, k => if k2 = k then v else lookupField rest k

/-- JS truthiness. `undefined`, `null`, `false`, `0` and the empty string
are falsy; every array and object is truthy. -/
def JVal.truthy : JVal → Bool
  | .jundefined => false
  | .jnull => false
  | .jbool b => b
  | .jnum n => n != 0
  | .jstr s => s != ""
  | .jarr _ => true
  | .jobj _ => true

/-- Whether the value is the `undefined` value (used for destructuring
defaults, which fire on `undefined` but not on `null`). -/
def JVal.isUndefined : JVal → Bool
  | .jundefined => true
  | _ => false

/-- Whether the value is nullish (`undefined` or `null`); property access
on a nullish value throws a TypeError. -/
def JVal.nullish : JVal → Bool
  | .jundefined => true
  | .jnull => true
  | _ => false

/-- The test `Array.isArray(v)`. -/
def JVal.isArray : JVal → Bool
  | .jarr _ => true
  | _ => false

/-- The test `typeof v === "string"`. -/
def JVal.isString : JVal → Bool
  | .jstr _ => true
  | _ => false

/-- Plain property access `v.k`: throws a TypeError on a nullish receiver,
reads the field of an object, and yields `undefined` on every other
primitive (none of the accessed names exists on a JS primitive). -/
def JVal.prop : JVal → String → Except String JVal
  | .jundefined, k => .error ("Cannot read properties of undefined (reading " ++ k ++ ")")
  | .jnull, k => .error ("Cannot read properties of null (reading " ++ k ++ ")")
  | .jobj fs, k => .ok (lookupField fs k)
  | _, _ => .ok .jundefined

/-- Optional-chaining property access `v?.k`: yields `undefined` on a
nullish receiver instead of throwing. -/
def JVal.optProp : JVal → String → JVal
  | .jundefined, _ => .jundefined
  | .jnull, _ => .jundefined
  | .jobj fs, k => lookupField fs k
  | _, _ => .jundefined

/-- Optional-chaining index access `v?.[i]`. On an object, `v[i]` reads the
field named by the decimal digits of `i`, as in JS. -/
def JVal.optIndex : JVal → Nat → JVal
  | .jundefined, _ => .jundefined
  | .jnull, _ => .jundefined
  | .jarr xs, i => (xs.get? i).getD .jundefined
  | .jobj fs, i => lookupField fs (toString i)
  | _, _ => .jundefined

/-- The expression `history.slice(-10)`: the trailing at-most-10-element window, written
identically in both endpoints. -/
def sliceLast10 (xs : List JVal) : List JVal :=
  xs.drop (xs.length - 10)

/-- One element of the `contents` array sent upstream. Both endpoints push
object literals of the exact shape `\x7b role, parts \x7d`, so a payload turn is a
pair of the two copied values. -/
structure PTurn where
  role : JVal
  parts : JVal

/-- The turn `\x7b role: "user", parts: [\x7b text: v \x7d] \x7d` as pushed by both
endpoints for the persona text and for the current message. -/
def userTextTurn (v : JVal) : PTurn :=
  ⟨.jstr "user", .jarr [.jobj [("text", v)]]⟩

/-- The canned `\x7b role: "model", parts: [\x7b text: s \x7d] \x7d` acknowledgment turn. -/
def modelTextTurn (s : String) : PTurn :=
  ⟨.jstr "model", .jarr [.jobj [("text", .jstr s)]]⟩

/-- The fixed generation parameters both endpoints send
(`temperature: 0.7, topK: 40, topP: 0.95, maxOutputTokens: 512`;
the two decimal literals are the rationals 7/10 and 95/100). -/
structure GenerationConfig where
  temperature : Rat
  topK : Nat
  topP : Rat
  maxOutputTokens : Nat

/-- One entry of the `safetySettings` array. -/
structure SafetySetting where
  category : String
  threshold : String

/-- The outbound upstream request: the full URL (which carries the API key
as the `key` query parameter) and the JSON request body. -/
structure OutboundCall where
  url : String
  contents : List PTurn
  generationConfig : GenerationConfig
  safetySettings : List SafetySetting

/-- The shared fixed generation parameters. -/
def fixedGenerationConfig : GenerationConfig :=
  ⟨7 / 10, 40, 95 / 100, 512⟩

/-- Outcome of the outbound `fetch` to the Gemini endpoint:
either the transport threw (with a JS error message), or a response with an
HTTP status and a body text arrived. `parsed` is the result of running
`JSON.parse` on that body text; since `JSON.parse` is deterministic, the
one field serves every parse site, and `.error msg` carries the JS parse
error message. -/
inductive Upstream where
  | unreachable : String → Upstream
  | reached : Nat → String → Except String JVal → Upstream

/-- The `Response.ok` test: status in the range 200–299. -/
def respOk (status : Nat) : Bool :=
  200 ≤ status && status ≤ 299

/-- Body of a client-facing response: either a raw text body or
`JSON.stringify` of a JS value. `none` models a `null` body. -/
inductive RespBody where
  | text : String → RespBody
  | json : JVal → RespBody

/-- A client-facing HTTP response: status, headers (in the order the source
lists them), and body. -/
structure Resp where
  status : Nat
  headers : List (String × String)
  body : Option RespBody

/-- The three CORS preflight headers, identical in both endpoints. -/
def preflightHeaders : List (String × String) :=
  [("Access-Control-Allow-Origin", "*"),
   ("Access-Control-Allow-Methods", "POST, OPTIONS"),
   ("Access-Control-Allow-Headers", "Content-Type")]

namespace ChatFn

/-- The `corsHeaders` constant of `src/functions/api/chat.js`, attached to
every `onRequestPost` response. -/
def corsHeaders : List (String × String) :=
  [("Access-Control-Allow-Origin", "*"),
   ("Access-Control-Allow-Methods", "POST, OPTIONS"),
   ("Access-Control-Allow-Headers", "Content-Type"),
   ("Content-Type", "application/json")]

/-- The constant `GEMINI_MODEL` in `src/functions/api/chat.js`. -/
def geminiModel : String := "gemma-3-27b-it"

/-- The `apiUrl` template up to the interpolated key: the full URL is this
string with the API key appended. -/
def apiUrlBase : String :=
  "https://generativelanguage.googleapis.com/v1beta/models/" ++ geminiModel
    ++ ":generateContent?key="

/-- The canned model acknowledgment pushed after the system prompt. -/
def ackText : String :=
  "Understood! I\x27m ready to assist as the Caffeine Machine AI barista. ☕"

/-- The `safetySettings` array sent by the Pages Function. -/
def chatSafetySettings : List SafetySetting :=
  [⟨"HARM_CATEGORY_HARASSMENT", "BLOCK_MEDIUM_AND_ABOVE"⟩,
   ⟨"HARM_CATEGORY_HATE_SPEECH", "BLOCK_MEDIUM_AND_ABOVE"⟩]

/-- The history loop of `onRequestPost`: for each turn of the trimmed
history, push `\x7b role: turn.role, parts: turn.parts \x7d` when
`turn.role && Array.isArray(turn.parts)`, observing JS evaluation order
(`turn.role` is read first and throws on a nullish turn). -/
def histTurns : List JVal → Except String (List PTurn)
  | [] => .ok []
  | t :: rest =>
    match t.prop "role" with
    | .error e => .error e
    | .ok role =>
      if role.truthy then
        match t.prop "parts" with
        | .error e => .error e
        | .ok parts =>
          if parts.isArray then
            match histTurns rest with
            | .error e => .error e
            | .ok tail => .ok (⟨role, parts⟩ :: tail)
          else histTurns rest
      else histTurns rest

/-- Lines 44–63 of `src/functions/api/chat.js`: build the `contents` array
from the (defaulted) `systemPrompt` and `history` values and the validated
`message` value. A non-array `history` is skipped (`if (Array.isArray(history))`). -/
def buildContents (systemPrompt history message : JVal) : Except String (List PTurn) :=
  let priming :=
    if systemPrompt.truthy then
      [userTextTurn systemPrompt, modelTextTurn ackText]
    else []
  match history with
  | .jarr xs =>
    match histTurns (sliceLast10 xs) with
    | .error e => .error e
    | .ok hs => .ok (priming ++ hs ++ [userTextTurn message])
  | _ => .ok (priming ++ [userTextTurn message])

/-- The value `JSON.parse(errText)` with the `catch` fallback `\x7b raw: errText \x7d`. -/
def errDetails (parsed : Except String JVal) (text : String) : JVal :=
  match parsed with
  | .ok j => j
  | .error _ => .jobj [("raw", .jstr text)]

/-- The expression `geminiData?.candidates?.[0]`. -/
def candidateOf (data : JVal) : JVal :=
  (data.optProp "candidates").optIndex 0

/-- The expression `candidate?.content?.parts?.[0]?.text`. -/
def replyOf (data : JVal) : JVal :=
  ((((candidateOf data).optProp "content").optProp "parts").optIndex 0).optProp "text"

/-- Lines 100–117 of `src/functions/api/chat.js`: extract the reply from
successfully parsed upstream data and build the 200 or the 502 `NoReply`
response. -/
def normalize (data : JVal) : Resp :=
  let candidate := candidateOf data
  let reply := replyOf data
  if reply.truthy then
    ⟨200, corsHeaders, some (.json (.jobj [("reply", reply)]))⟩
  else
    let fr := candidate.optProp "finishReason"
    let finishReason := if fr.truthy then fr else .jstr "UNKNOWN"
    ⟨502, corsHeaders,
      some (.json (.jobj [("error", .jstr "No reply from Gemini"),
                          ("finishReason", finishReason)]))⟩

/-- Lines 69–117 of `src/functions/api/chat.js`: the outbound call and the
interpretation of its outcome (the `try` around `fetch`, the non-`ok`
branch, the body parse and the reply extraction). -/
def callUpstream (call : OutboundCall) (upstream : Upstream) : Resp × Option OutboundCall :=
  match upstream with
  | .unreachable msg =>
    (⟨502, corsHeaders,
      some (.json (.jobj [("error", .jstr "Failed to reach Gemini API"),
                          ("details", .jstr msg)]))⟩,
     some call)
  | .reached status text parsed =>
    if !respOk status then
      (⟨status, corsHeaders,
        some (.json (.jobj [("error", .jstr "Gemini API error"),
                            ("status", .jnum status),
                            ("details", errDetails parsed text)]))⟩,
       some call)
    else
      match parsed with
      | .error _ =>
        (⟨502, corsHeaders,
          some (.json (.jobj [("error", .jstr "Failed to parse Gemini response")]))⟩,
         some call)
      | .ok data => (normalize data, some call)

/-- The handler `onRequestPost` of `src/functions/api/chat.js`. The outer `Except` is an
uncaught JS exception escaping the function (only the body parse, the
upstream fetch and the upstream body parse are wrapped in `try` in the
source; the destructuring and the history loop are not). -/
def onRequestPost (body : Except String JVal) (apiKey : String) (upstream : Upstream) :
    Except String (Resp × Option OutboundCall) :=
  match body with
  | .error _ =>
    .ok (⟨400, corsHeaders, some (.json (.jobj [("error", .jstr "Invalid JSON body")]))⟩, none)
  | .ok b =>
    -- const \x7b message, history = [], systemPrompt = \x27\x27 \x7d = body;
    match b.prop "message" with
    | .error e => .error e
    | .ok message =>
      match b.prop "history" with
      | .error e => .error e
      | .ok historyRaw =>
        match b.prop "systemPrompt" with
        | .error e => .error e
        | .ok systemPromptRaw =>
          let history := if historyRaw.isUndefined then .jarr [] else historyRaw
          let systemPrompt := if systemPromptRaw.isUndefined then .jstr "" else systemPromptRaw
          if !message.truthy || !message.isString then
            .ok (⟨400, corsHeaders,
                  some (.json (.jobj [("error", .jstr "Missing or invalid \"message\" field")]))⟩,
                 none)
          else if apiKey = "" then
            .ok (⟨500, corsHeaders,
                  some (.json (.jobj [("error",
                    .jstr "Server configuration error: missing API key (API_KEY_caffine)")]))⟩,
                 none)
          else
            match buildContents systemPrompt history message with
            | .error e => .error e
            | .ok contents =>
              .ok (callUpstream
                ⟨apiUrlBase ++ apiKey, contents, fixedGenerationConfig, chatSafetySettings⟩
                upstream)

/-- The handler `onRequestOptions` of `src/functions/api/chat.js`: status 204, the three
CORS headers, `null` body. -/
def onRequestOptions : Resp :=
  ⟨204, preflightHeaders, none⟩

end ChatFn

namespace Worker

/-- The constant `MODEL` in `src/worker.js`. -/
def model : String := "gemma-3-27b-it"

/-- The `apiUrl` template up to the interpolated key. -/
def apiUrlBase : String :=
  "https://generativelanguage.googleapis.com/v1beta/models/" ++ model
    ++ ":generateContent?key="

/-- The `BARISTA_PROMPT` template literal of `src/worker.js`, byte for byte
(it keeps the trailing spaces and the 12-space indentation of the source). -/
def baristaPrompt : String :=
  "You are a friendly barista at Caffeine Machine in Las Vegas. \n            Talk like a real person—simple, warm, and natural. Keep it short (1-2 sentences). \n            Mention the \"Coffee Flight\" if they\x27re looking for recommendations! ☕"

/-- The canned model acknowledgment the Worker always pushes. -/
def ackText : String :=
  "Got it! I\x27ll keep it simple and friendly, like a real chat. ☕"

/-- The friendly fallback reply used when no reply text is extracted. -/
def fallbackReply : String :=
  "I\x27m sorry, I couldn\x27t brew a response right now. ☕"

/-- The two headers the Worker puts on its JSON responses. -/
def jsonHeaders : List (String × String) :=
  [("Content-Type", "application/json"),
   ("Access-Control-Allow-Origin", "*")]

/-- The history loop of the Worker: `history.slice(-10).forEach`, pushing
`\x7b role: turn.role, parts: turn.parts \x7d` when `turn.role && turn.parts`
(truthiness of `parts`, with no array check, unlike the Pages Function). -/
def histTurns : List JVal → Except String (List PTurn)
  | [] => .ok []
  | t :: rest =>
    match t.prop "role" with
    | .error e => .error e
    | .ok role =>
      if role.truthy then
        match t.prop "parts" with
        | .error e => .error e
        | .ok parts =>
          if parts.truthy then
            match histTurns rest with
            | .error e => .error e
            | .ok tail => .ok (⟨role, parts⟩ :: tail)
          else histTurns rest
      else histTurns rest

/-- The expression `history.slice(-10)` in the Worker. The destructuring default has
already replaced `undefined`; on every other non-array value the chained
`.slice(-10).forEach(...)` throws a TypeError (e.g. `slice` is not a
function, or `forEach` is not a function on the string `slice` returns). -/
def histList : JVal → Except String (List JVal)
  | .jarr xs => .ok (sliceLast10 xs)
  | .jundefined => .error "history.slice is not a function"
  | .jnull => .error "Cannot read properties of null (reading slice)"
  | _ => .error "history.slice(-10).forEach is not a function"

/-- Lines 42–61 of `src/worker.js`: the persona pair is always pushed (the
caller-supplied `systemPrompt` is never used), then the filtered trailing
history, then the raw `message` value (the Worker never validates it). -/
def buildContents (history message : JVal) : Except String (List PTurn) :=
  match histList history with
  | .error e => .error e
  | .ok window =>
    match histTurns window with
    | .error e => .error e
    | .ok hs =>
      .ok ([userTextTurn (.jstr baristaPrompt), modelTextTurn ackText]
            ++ hs ++ [userTextTurn message])

/-- The chain `candidates?.[0]?.content?.parts?.[0]?.text` applied to the value of
`data.candidates`. -/
def replyFrom (cands : JVal) : JVal :=
  ((((cands.optIndex 0).optProp "content").optProp "parts").optIndex 0).optProp "text"

/-- The chain `data.candidates?.[0]?.content?.parts?.[0]?.text` for a non-nullish
`data` (the plain `data.candidates` access throws on nullish `data`). -/
def replyOf (data : JVal) : JVal :=
  replyFrom (data.optProp "candidates")

/-- Lines 66–86 of `src/worker.js`: the outbound call and the
interpretation of its outcome. The Worker never checks `response.ok`; it
parses the body and extracts the reply, so a thrown transport or parse
error propagates to the surrounding `catch`. -/
def callUpstream (call : OutboundCall) (upstream : Upstream) :
    Except (String × Option OutboundCall) (Resp × Option OutboundCall) :=
  match upstream with
  | .unreachable msg => .error (msg, some call)   -- await fetch threw
  | .reached _status _text parsed =>
    -- const data = await response.json();
    match parsed with
    | .error e => .error (e, some call)
    | .ok data =>
      -- const reply = data.candidates?.[0]?.content?.parts?.[0]?.text;
      match data.prop "candidates" with
      | .error e => .error (e, some call)
      | .ok cands =>
        let reply := replyFrom cands
        .ok (⟨200, jsonHeaders,
              some (.json (.jobj [("reply",
                if reply.truthy then reply else .jstr fallbackReply)]))⟩,
             some call)

/-- The body of the `try` block of `Worker.fetch`. A thrown JS exception is
an `.error` carrying the error message together with the outbound call in
flight when the throw happened (`none` when the throw precedes the fetch). -/
def tryBlock (body : Except String JVal) (apiKey : String) (upstream : Upstream) :
    Except (String × Option OutboundCall) (Resp × Option OutboundCall) :=
  match body with
  | .error e => .error (e, none)   -- await request.json() threw
  | .ok b =>
    -- const \x7b message, history = [], systemPrompt = "" \x7d = await request.json();
    match b.prop "message" with
    | .error e => .error (e, none)
    | .ok message =>
      match b.prop "history" with
      | .error e => .error (e, none)
      | .ok historyRaw =>
        match b.prop "systemPrompt" with
        | .error e => .error (e, none)
        | .ok _systemPrompt =>
          let history := if historyRaw.isUndefined then .jarr [] else historyRaw
          if apiKey = "" then
            .ok (⟨500, jsonHeaders,
                  some (.json (.jobj [("error", .jstr "API key not configured")]))⟩,
                 none)
          else
            match buildContents history message with
            | .error e => .error (e, none)
            | .ok contents =>
              callUpstream ⟨apiUrlBase ++ apiKey, contents, fixedGenerationConfig, []⟩ upstream

/-- The `catch` block of `Worker.fetch`: a thrown error becomes an HTTP
500 with `\x7b error: err.message \x7d`; the outbound-call tracking passes
through unchanged. -/
def catchWrap (x : Except (String × Option OutboundCall) (Resp × Option OutboundCall)) :
    Resp × Option OutboundCall :=
  match x with
  | .ok r => r
  | .error (msg, c) =>
    (⟨500, jsonHeaders, some (.json (.jobj [("error", .jstr msg)]))⟩, c)

/-- The handler `fetch` of `src/worker.js`. `OPTIONS` returns a `Response` with the
three CORS headers and no explicit status, hence the constructor default
status 200; non-`POST` methods get a plain-text 405; everything else runs
the `try` block with the `catch` wrapped around it. -/
def fetch (method : String) (body : Except String JVal) (apiKey : String)
    (upstream : Upstream) : Resp × Option OutboundCall :=
  if method = "OPTIONS" then
    (⟨200, preflightHeaders, none⟩, none)
  else if method ≠ "POST" then
    (⟨405, [], some (.text "Method Not Allowed")⟩, none)
  else
    catchWrap (tryBlock body apiKey upstream)

end Worker

/-! ## Projections used to state the claims -/

/-- The client-facing response of a Pages Function run, when no uncaught
exception escaped. -/
def respOf : Except String (Resp × Option OutboundCall) → Option Resp
  | .ok (r, _) => some r
  | .error _ => none

/-- The `contents` array of the outbound call of a Pages Function run, when
the call was issued. -/
def sentContents : Except String (Resp × Option OutboundCall) → Option (List PTurn)
  | .ok (_, some c) => some c.contents
  | _ => none

/-- Whether a run ended in a JS exception. -/
def exceptCrashed {α : Type} : Except String α → Bool
  | .error _ => true
  | .ok _ => false

/-- What a client can observe of a Pages Function run, with the outbound
call reduced to its `contents` (the URL, which carries the API key, is
outbound-only). -/
def visibleExc : Except String (Resp × Option OutboundCall) → Except String (Resp × Option (List PTurn))
  | .error e => .error e
  | .ok (r, c) => .ok (r, c.map OutboundCall.contents)

/-- What a client can observe of a Worker run, with the outbound call
reduced to its `contents`. -/
def visiblePair : Resp × Option OutboundCall → Resp × Option (List PTurn)
  | (r, c) => (r, c.map OutboundCall.contents)

/-- The same observation for the try block of the Worker, before the catch
collapses exceptions. -/
def visTry : Except (String × Option OutboundCall) (Resp × Option OutboundCall) →
    Except (String × Option (List PTurn)) (Resp × Option (List PTurn))
  | .error (e, c) => .error (e, c.map OutboundCall.contents)
  | .ok (r, c) => .ok (r, c.map OutboundCall.contents)

/-- The shape test of the Pages Function history loop,
`turn.role && Array.isArray(turn.parts)`, as a total predicate on
non-nullish turns. -/
def chatShapeOk (t : JVal) : Bool :=
  (t.optProp "role").truthy && (t.optProp "parts").isArray

/-- The shape test of the Worker history loop, `turn.role && turn.parts`,
as a total predicate on non-nullish turns. -/
def workerShapeOk (t : JVal) : Bool :=
  (t.optProp "role").truthy && (t.optProp "parts").truthy

/-- The payload turn forwarded for a history entry:
`\x7b role: turn.role, parts: turn.parts \x7d`. -/
def toPTurn (t : JVal) : PTurn :=
  ⟨t.optProp "role", t.optProp "parts"⟩

/-- The call in flight recorded by the outcome of the try block of the Worker. -/
def tryCallOf : Except (String × Option OutboundCall) (Resp × Option OutboundCall) →
    Option OutboundCall
  | .ok (_, c) => c
  | .error (_, c) => c

/-- The URL of the outbound call of a Pages Function run, when the call
was issued. -/
def sentUrl : Except String (Resp × Option OutboundCall) → Option String
  | .ok (_, some c) => some c.url
  | _ => none

/-! ## Helper lemmas -/

theorem JVal.prop_of_not_nullish (t : JVal) (h : t.nullish = false) (k : String) :
    t.prop k = .ok (t.optProp k) := by
  cases t <;> simp_all [JVal.nullish, JVal.prop, JVal.optProp]

theorem defaultedUndef_truthy (v : JVal) :
    (if v.isUndefined then JVal.jstr "" else v).truthy = v.truthy := by
  cases v <;> rfl

theorem ChatFn.histTurns_eq_filter (l : List JVal) (h : ∀ t ∈ l, t.nullish = false) :
    ChatFn.histTurns l = .ok ((l.filter chatShapeOk).map toPTurn) := by
  induction l with
  | nil => rfl
  | cons t rest ih =>
    have ht : t.nullish = false := h t (by simp)
    have hrest := ih (fun x hx => h x (by simp [hx]))
    by_cases hr : (t.optProp "role").truthy
    · by_cases hp : (t.optProp "parts").isArray
      · simp [ChatFn.histTurns, JVal.prop_of_not_nullish t ht, hr, hp, hrest,
          List.filter_cons, chatShapeOk, toPTurn]
      · simp [ChatFn.histTurns, JVal.prop_of_not_nullish t ht, hr, hp, hrest,
          List.filter_cons, chatShapeOk]
    · simp [ChatFn.histTurns, JVal.prop_of_not_nullish t ht, hr, hrest,
        List.filter_cons, chatShapeOk]

theorem Worker.workerHistTurns_eq_filter (l : List JVal) (h : ∀ t ∈ l, t.nullish = false) :
    Worker.histTurns l = .ok ((l.filter workerShapeOk).map toPTurn) := by
  induction l with
  | nil => rfl
  | cons t rest ih =>
    have ht : t.nullish = false := h t (by simp)
    have hrest := ih (fun x hx => h x (by simp [hx]))
    by_cases hr : (t.optProp "role").truthy
    · by_cases hp : (t.optProp "parts").truthy
      · simp [Worker.histTurns, JVal.prop_of_not_nullish t ht, hr, hp, hrest,
          List.filter_cons, workerShapeOk, toPTurn]
      · simp [Worker.histTurns, JVal.prop_of_not_nullish t ht, hr, hp, hrest,
          List.filter_cons, workerShapeOk]
    · simp [Worker.histTurns, JVal.prop_of_not_nullish t ht, hr, hrest,
        List.filter_cons, workerShapeOk]

theorem ChatFn.histTurns_crashes (l : List JVal) (h : ∃ t ∈ l, t.nullish = true) :
    exceptCrashed (ChatFn.histTurns l) = true := by
  induction l with
  | nil => simp at h
  | cons t rest ih =>
    rcases h with ⟨x, hx, hxn⟩
    rcases List.mem_cons.mp hx with rfl | hx'
    · cases x <;> simp_all [JVal.nullish, ChatFn.histTurns, JVal.prop, exceptCrashed]
    · have hcr := ih ⟨x, hx', hxn⟩
      rcases hpr : t.prop "role" with e | role
      · simp [ChatFn.histTurns, hpr, exceptCrashed]
      · by_cases hr : role.truthy
        · rcases hpp : t.prop "parts" with e | parts
          · simp [ChatFn.histTurns, hpr, hr, hpp, exceptCrashed]
          · by_cases hp : parts.isArray
            · rcases hrec : ChatFn.histTurns rest with e | tail
              · simp [ChatFn.histTurns, hpr, hr, hpp, hp, hrec, exceptCrashed]
              · rw [hrec] at hcr; simp [exceptCrashed] at hcr
            · rw [← hcr]; simp [ChatFn.histTurns, hpr, hr, hpp, hp]
        · rw [← hcr]; simp [ChatFn.histTurns, hpr, hr]

theorem Worker.workerHistTurns_crashes (l : List JVal) (h : ∃ t ∈ l, t.nullish = true) :
    exceptCrashed (Worker.histTurns l) = true := by
  induction l with
  | nil => simp at h
  | cons t rest ih =>
    rcases h with ⟨x, hx, hxn⟩
    rcases List.mem_cons.mp hx with rfl | hx'
    · cases x <;> simp_all [JVal.nullish, Worker.histTurns, JVal.prop, exceptCrashed]
    · have hcr := ih ⟨x, hx', hxn⟩
      rcases hpr : t.prop "role" with e | role
      · simp [Worker.histTurns, hpr, exceptCrashed]
      · by_cases hr : role.truthy
        · rcases hpp : t.prop "parts" with e | parts
          · simp [Worker.histTurns, hpr, hr, hpp, exceptCrashed]
          · by_cases hp : parts.truthy
            · rcases hrec : Worker.histTurns rest with e | tail
              · simp [Worker.histTurns, hpr, hr, hpp, hp, hrec, exceptCrashed]
              · rw [hrec] at hcr; simp [exceptCrashed] at hcr
            · rw [← hcr]; simp [Worker.histTurns, hpr, hr, hpp, hp]
        · rw [← hcr]; simp [Worker.histTurns, hpr, hr]

theorem ChatFn.buildContents_eq (sp : JVal) (hs : List JVal) (m : JVal)
    (hall : ∀ t ∈ sliceLast10 hs, t.nullish = false) :
    ChatFn.buildContents (if sp.isUndefined then JVal.jstr "" else sp) (.jarr hs) m
      = .ok ((if sp.truthy then [userTextTurn sp, modelTextTurn ChatFn.ackText] else [])
          ++ ((sliceLast10 hs).filter chatShapeOk).map toPTurn ++ [userTextTurn m]) := by
  have hfilter := ChatFn.histTurns_eq_filter _ hall
  cases sp <;> simp [ChatFn.buildContents, JVal.isUndefined, JVal.truthy, hfilter]

theorem Worker.workerBuildContents_eq (hs : List JVal) (m : JVal)
    (hall : ∀ t ∈ sliceLast10 hs, t.nullish = false) :
    Worker.buildContents (.jarr hs) m
      = .ok ([userTextTurn (.jstr Worker.baristaPrompt), modelTextTurn Worker.ackText]
          ++ ((sliceLast10 hs).filter workerShapeOk).map toPTurn ++ [userTextTurn m]) := by
  simp [Worker.buildContents, Worker.histList, Worker.workerHistTurns_eq_filter _ hall]

theorem ChatFn.callUpstream_snd (c : OutboundCall) (u : Upstream) :
    (ChatFn.callUpstream c u).2 = some c := by
  cases u with
  | unreachable m => rfl
  | reached s t p =>
    by_cases h : respOk s <;> rcases p with e | d <;> simp [ChatFn.callUpstream, h]

theorem ChatFn.callUpstream_fst_call_free (c c' : OutboundCall) (u : Upstream) :
    (ChatFn.callUpstream c u).1 = (ChatFn.callUpstream c' u).1 := by
  cases u with
  | unreachable m => rfl
  | reached s t p =>
    by_cases h : respOk s <;> rcases p with e | d <;> simp [ChatFn.callUpstream, h]

theorem Worker.callUpstream_visTry_call_free (cont : List PTurn) (g : GenerationConfig)
    (ss : List SafetySetting) (u1 u2 : String) (u : Upstream) :
    visTry (Worker.callUpstream ⟨u1, cont, g, ss⟩ u)
      = visTry (Worker.callUpstream ⟨u2, cont, g, ss⟩ u) := by
  cases u with
  | unreachable m => rfl
  | reached s t p =>
    rcases p with e | d
    · rfl
    · rcases hc : d.prop "candidates" with e | cands <;>
        simp [Worker.callUpstream, hc, visTry]

theorem sentContents_ok_callUpstream (call : OutboundCall) (u : Upstream) :
    sentContents (.ok (ChatFn.callUpstream call u)) = some call.contents := by
  rcases hcu : ChatFn.callUpstream call u with ⟨r, c⟩
  have h2 := ChatFn.callUpstream_snd call u
  rw [hcu] at h2
  simp at h2
  subst h2
  simp [sentContents]

theorem Worker.callUpstream_tryCallOf (call : OutboundCall) (u : Upstream) :
    tryCallOf (Worker.callUpstream call u) = some call := by
  cases u with
  | unreachable m => rfl
  | reached s t p =>
    rcases p with e | d
    · rfl
    · rcases hc : d.prop "candidates" with e | cands <;>
        simp [Worker.callUpstream, hc, tryCallOf]


theorem JVal.truthy_jstr (s : String) : (JVal.jstr s).truthy = (s != "") := rfl

theorem JVal.isString_jstr (s : String) : (JVal.jstr s).isString = true := rfl

theorem JVal.isUndefined_jarr (xs : List JVal) : (JVal.jarr xs).isUndefined = false := rfl

theorem Worker.fetch_post_snd (body : Except String JVal) (k : String) (u : Upstream) :
    (Worker.fetch "POST" body k u).2 = tryCallOf (Worker.tryBlock body k u) := by
  simp only [Worker.fetch]
  rcases h : Worker.tryBlock body k u with ⟨e, c⟩ | ⟨r, c⟩ <;>
    simp [h, tryCallOf, Worker.catchWrap]

/-- Claim C1: for every valid input, the assembled conversation payload is,
in order, one persona priming pair when a persona is configured (in the
Pages Function: a truthy `systemPrompt`; in the Worker: always, with the
hardcoded barista persona), then the entries of the trailing at-most-10
window of the history that pass the shape filter, in their original
relative order, then exactly one final user turn whose single part text
equals the message. -/
theorem c1_conversation_payload_structure
    (m : String) (hs : List JVal) (sp : JVal) (k : String) (u : Upstream)
    (hm : m ≠ "") (hall : ∀ t ∈ hs, t.nullish = false) (hk : k ≠ "") :
    sentContents (ChatFn.onRequestPost
        (.ok (.jobj [("message", .jstr m), ("history", .jarr hs), ("systemPrompt", sp)]))
        k u)
      = some ((if sp.truthy then [userTextTurn sp, modelTextTurn ChatFn.ackText] else [])
          ++ ((sliceLast10 hs).filter chatShapeOk).map toPTurn
          ++ [userTextTurn (.jstr m)])
    ∧ (Worker.fetch "POST"
        (.ok (.jobj [("message", .jstr m), ("history", .jarr hs), ("systemPrompt", sp)]))
        k u).2.map OutboundCall.contents
      = some ([userTextTurn (.jstr Worker.baristaPrompt), modelTextTurn Worker.ackText]
          ++ ((sliceLast10 hs).filter workerShapeOk).map toPTurn
          ++ [userTextTurn (.jstr m)]) := by
  have hallW : ∀ t ∈ sliceLast10 hs, t.nullish = false :=
    fun t ht => hall t (List.drop_subset _ _ ht)
  constructor
  · have hbc := ChatFn.buildContents_eq sp hs (.jstr m) hallW
    simp [ChatFn.onRequestPost, JVal.prop, lookupField, JVal.truthy_jstr,
      JVal.isString_jstr, JVal.isUndefined_jarr, hm, hk, hbc, sentContents_ok_callUpstream]
  · have hbc := Worker.workerBuildContents_eq hs (.jstr m) hallW
    rw [Worker.fetch_post_snd]
    simp [Worker.tryBlock, JVal.prop, lookupField, JVal.isUndefined_jarr, hk, hbc,
      Worker.callUpstream_tryCallOf]

theorem c1_conversation_payload_structure_witness :
    sentContents (ChatFn.onRequestPost
        (.ok (.jobj [("message", .jstr "hi"),
                     ("history", .jarr [.jobj [("role", .jstr "user"), ("parts", .jarr [])],
                                        .jobj [("role", .jstr "model")]]),
                     ("systemPrompt", .jstr "persona")]))
        "secret" (.reached 200 "x" (.ok (.jobj []))))
      = some [userTextTurn (.jstr "persona"), modelTextTurn ChatFn.ackText,
              ⟨.jstr "user", .jarr []⟩, userTextTurn (.jstr "hi")]
    ∧ (Worker.fetch "POST"
        (.ok (.jobj [("message", .jstr "hi"),
                     ("history", .jarr [.jobj [("role", .jstr "user"), ("parts", .jarr [])],
                                        .jobj [("role", .jstr "model")]]),
                     ("systemPrompt", .jstr "persona")]))
        "secret" (.reached 200 "x" (.ok (.jobj [])))).2.map OutboundCall.contents
      = some [userTextTurn (.jstr Worker.baristaPrompt), modelTextTurn Worker.ackText,
              ⟨.jstr "user", .jarr []⟩, userTextTurn (.jstr "hi")] := by
  have h := c1_conversation_payload_structure "hi"
    [.jobj [("role", .jstr "user"), ("parts", .jarr [])], .jobj [("role", .jstr "model")]]
    (.jstr "persona") "secret" (.reached 200 "x" (.ok (.jobj [])))
    (by decide) (by decide) (by decide)
  simpa using h

theorem ChatFn.onRequestPost_call_inv (body : Except String JVal) (k : String) (u : Upstream)
    (r : Resp) (c : OutboundCall)
    (h : ChatFn.onRequestPost body k u = .ok (r, some c)) :
    ChatFn.callUpstream c u = (r, some c) := by
  rcases body with e | b
  · simp [ChatFn.onRequestPost] at h
  · rcases h1 : b.prop "message" with e | msg
    · simp [ChatFn.onRequestPost, h1] at h
    · rcases h2 : b.prop "history" with e | hist
      · simp [ChatFn.onRequestPost, h1, h2] at h
      · rcases h3 : b.prop "systemPrompt" with e | sp
        · simp [ChatFn.onRequestPost, h1, h2, h3] at h
        · by_cases hval : (!msg.truthy || !msg.isString) = true
          · simp [ChatFn.onRequestPost, h1, h2, h3, hval] at h
          · by_cases hkey : k = ""
            · simp [ChatFn.onRequestPost, h1, h2, h3, hval, hkey] at h
            · rcases hbc : ChatFn.buildContents
                  (if sp.isUndefined then JVal.jstr "" else sp)
                  (if hist.isUndefined then JVal.jarr [] else hist) msg with e | cont
              · simp [ChatFn.onRequestPost, h1, h2, h3, hval, hkey, hbc] at h
              · simp only [ChatFn.onRequestPost, h1, h2, h3, hval, hkey, hbc,
                  if_false, Bool.false_eq_true] at h
                simp only [Except.ok.injEq] at h
                have hsnd := ChatFn.callUpstream_snd
                  ⟨ChatFn.apiUrlBase ++ k, cont, fixedGenerationConfig, ChatFn.chatSafetySettings⟩ u
                rw [h] at hsnd
                simp at hsnd
                subst hsnd
                exact h

theorem Worker.tryBlock_call_inv (body : Except String JVal) (k : String) (u : Upstream)
    (c : OutboundCall)
    (h : tryCallOf (Worker.tryBlock body k u) = some c) :
    Worker.callUpstream c u = Worker.tryBlock body k u := by
  rcases body with e | b
  · simp [Worker.tryBlock, tryCallOf] at h
  · rcases h1 : b.prop "message" with e | msg
    · simp [Worker.tryBlock, h1, tryCallOf] at h
    · rcases h2 : b.prop "history" with e | hist
      · simp [Worker.tryBlock, h1, h2, tryCallOf] at h
      · rcases h3 : b.prop "systemPrompt" with e | sp
        · simp [Worker.tryBlock, h1, h2, h3, tryCallOf] at h
        · by_cases hkey : k = ""
          · simp [Worker.tryBlock, h1, h2, h3, hkey, tryCallOf] at h
          · rcases hbc : Worker.buildContents
                (if hist.isUndefined then JVal.jarr [] else hist) msg with e | cont
            · simp [Worker.tryBlock, h1, h2, h3, hkey, hbc, tryCallOf] at h
            · simp only [Worker.tryBlock, h1, h2, h3, hkey, hbc,
                if_false, Bool.false_eq_true] at h ⊢
              rw [Worker.callUpstream_tryCallOf] at h
              simp only [Option.some.injEq] at h
              rw [← h]

theorem Worker.fetch_call_inv (body : Except String JVal) (k : String) (u : Upstream)
    (r : Resp) (c : OutboundCall)
    (h : Worker.fetch "POST" body k u = (r, some c)) :
    Worker.callUpstream c u = .ok (r, some c)
    ∨ ∃ e, Worker.callUpstream c u = .error (e, some c)
        ∧ r = ⟨500, Worker.jsonHeaders, some (.json (.jobj [("error", .jstr e)]))⟩ := by
  rcases htb : Worker.tryBlock body k u with ⟨e, c'⟩ | ⟨r', c'⟩
  · have hf : Worker.fetch "POST" body k u
        = (⟨500, Worker.jsonHeaders, some (.json (.jobj [("error", .jstr e)]))⟩, c') := by
      simp [Worker.fetch, htb, Worker.catchWrap]
    rw [hf] at h
    obtain ⟨hr, hc⟩ := Prod.mk.injEq .. ▸ h
    right
    refine ⟨e, ?_, hr.symm⟩
    have hinv := Worker.tryBlock_call_inv body k u c (by rw [htb, hc]; rfl)
    rw [hinv, htb, hc]
  · have hf : Worker.fetch "POST" body k u = (r', c') := by
      simp [Worker.fetch, htb, Worker.catchWrap]
    rw [hf] at h
    obtain ⟨hr, hc⟩ := Prod.mk.injEq .. ▸ h
    left
    have hinv := Worker.tryBlock_call_inv body k u c (by rw [htb, hc]; rfl)
    rw [hinv, htb, hr, hc]

/-- Claim C2 counterexample: the Worker performs no validation of
`message`. A POST whose JSON body lacks `message` still triggers the
outbound upstream call, and (with a well-formed upstream reply available)
is answered 200, not 400. -/
theorem c2_missing_message_counterexample :
    ((Worker.fetch "POST" (.ok (.jobj [("history", .jarr [])])) "secret"
        (.reached 200 "ok" (.ok (.jobj [("candidates", .jarr [])])))).2).isSome = true
    ∧ (Worker.fetch "POST" (.ok (.jobj [("history", .jarr [])])) "secret"
        (.reached 200 "ok" (.ok (.jobj [("candidates", .jarr [])])))).1.status = 200 := by
  constructor <;> rfl

/-- Claim C2 (amended): in the Pages Function, a JSON body whose `message`
is absent, empty, non-string or otherwise falsy is answered 400 with the
`Missing or invalid "message" field` error body and no outbound call is
made; the Worker, however, performs no message validation and issues the
upstream call even when `message` is absent. -/
theorem c2_missing_message_amended :
    (∀ (b : JVal) (k : String) (u : Upstream),
      b.nullish = false →
      ((b.optProp "message").truthy = false ∨ (b.optProp "message").isString = false) →
      ChatFn.onRequestPost (.ok b) k u
        = .ok (⟨400, ChatFn.corsHeaders,
            some (.json (.jobj [("error", .jstr "Missing or invalid \"message\" field")]))⟩,
           none))
    ∧ (∀ (hs : List JVal) (sp : JVal) (k : String) (u : Upstream),
      k ≠ "" → (∀ t ∈ hs, t.nullish = false) →
      ((Worker.fetch "POST" (.ok (.jobj [("history", .jarr hs), ("systemPrompt", sp)]))
          k u).2).isSome = true) := by
  constructor
  · intro b k u hb hbad
    have h1 := JVal.prop_of_not_nullish b hb "message"
    have h2 := JVal.prop_of_not_nullish b hb "history"
    have h3 := JVal.prop_of_not_nullish b hb "systemPrompt"
    rcases hbad with hbad | hbad <;>
      simp [ChatFn.onRequestPost, h1, h2, h3, hbad]
  · intro hs sp k u hk hall
    have hallW : ∀ t ∈ sliceLast10 hs, t.nullish = false :=
      fun t ht => hall t (List.drop_subset _ _ ht)
    have hbc := Worker.workerBuildContents_eq hs .jundefined hallW
    rw [Worker.fetch_post_snd]
    simp [Worker.tryBlock, JVal.prop, lookupField, JVal.isUndefined_jarr, hk, hbc,
      Worker.callUpstream_tryCallOf]

theorem c2_missing_message_witness :
    ChatFn.onRequestPost (.ok (.jobj [("note", .jstr "no message here")])) "secret"
        (.unreachable "down")
      = .ok (⟨400, ChatFn.corsHeaders,
          some (.json (.jobj [("error", .jstr "Missing or invalid \"message\" field")]))⟩,
         none)
    ∧ ((Worker.fetch "POST" (.ok (.jobj [("history", .jarr []), ("systemPrompt", .jstr "x")]))
        "secret" (.unreachable "down")).2).isSome = true := by
  exact ⟨c2_missing_message_amended.1 (.jobj [("note", .jstr "no message here")]) "secret"
          (.unreachable "down") (by decide) (Or.inl (by decide)),
        c2_missing_message_amended.2 [] (.jstr "x") "secret" (.unreachable "down")
          (by decide) (by decide)⟩

/-- Claim C3 counterexample: the Worker does not propagate a non-2xx
upstream status. With the upstream answering 429 and a JSON error body,
the client-facing status of the Worker is 200, not 429. -/
theorem c3_upstream_status_counterexample :
    (Worker.fetch "POST" (.ok (.jobj [("message", .jstr "hi")])) "secret"
        (.reached 429 "quota" (.ok (.jobj [("error", .jstr "rate limited")])))).1.status = 200
    ∧ (Worker.fetch "POST" (.ok (.jobj [("message", .jstr "hi")])) "secret"
        (.reached 429 "quota" (.ok (.jobj [("error", .jstr "rate limited")])))).1.status ≠ 429 := by
  constructor
  · rfl
  · decide

/-- Claim C3 (amended): in the Pages Function, every non-2xx upstream
status is surfaced to the client with the same numeric status and a
`details` field holding the upstream body parsed as JSON, or wrapped as
`\x7b raw: text \x7d` when it is not JSON; the Worker does not propagate the
upstream status: whenever the upstream body parses to non-nullish JSON, the
client-facing status of the Worker is 200 regardless of the upstream status. -/
theorem c3_upstream_status_amended :
    (∀ (body : Except String JVal) (k : String) (s : Nat) (text : String)
       (parsed : Except String JVal) (r : Resp) (c : OutboundCall),
      respOk s = false →
      ChatFn.onRequestPost body k (.reached s text parsed) = .ok (r, some c) →
      r = ⟨s, ChatFn.corsHeaders,
            some (.json (.jobj [("error", .jstr "Gemini API error"),
                                ("status", .jnum s),
                                ("details", ChatFn.errDetails parsed text)]))⟩)
    ∧ (∀ (body : Except String JVal) (k : String) (s : Nat) (text : String)
       (data : JVal) (r : Resp) (c : OutboundCall),
      data.nullish = false →
      Worker.fetch "POST" body k (.reached s text (.ok data)) = (r, some c) →
      r.status = 200) := by
  constructor
  · intro body k s text parsed r c hbad h
    have hinv := ChatFn.onRequestPost_call_inv body k _ r c h
    have hr : r = (ChatFn.callUpstream c (.reached s text parsed)).1 := by rw [hinv]
    rw [hr]
    simp [ChatFn.callUpstream, hbad]
  · intro body k s text data r c hd h
    rcases Worker.fetch_call_inv body k _ r c h with hok | ⟨e, herr, _⟩
    · rw [Worker.callUpstream, JVal.prop_of_not_nullish data hd] at hok
      simp only [Except.ok.injEq, Prod.mk.injEq] at hok
      rw [← hok.1]
    · rw [Worker.callUpstream, JVal.prop_of_not_nullish data hd] at herr
      simp at herr

theorem c3_upstream_status_witness :
    respOf (ChatFn.onRequestPost (.ok (.jobj [("message", .jstr "hi")])) "secret"
        (.reached 429 "quota" (.ok (.jobj [("error", .jstr "rate limited")]))))
      = some ⟨429, ChatFn.corsHeaders,
          some (.json (.jobj [("error", .jstr "Gemini API error"),
                              ("status", .jnum 429),
                              ("details", .jobj [("error", .jstr "rate limited")])]))⟩
    ∧ (Worker.fetch "POST" (.ok (.jobj [("message", .jstr "hi")])) "secret"
        (.reached 429 "quota" (.ok (.jobj [("error", .jstr "rate limited")])))).1.status = 200 := by
  constructor
  · have hrun : ChatFn.onRequestPost (.ok (.jobj [("message", .jstr "hi")])) "secret"
        (.reached 429 "quota" (.ok (.jobj [("error", .jstr "rate limited")])))
        = .ok (⟨429, ChatFn.corsHeaders,
            some (.json (.jobj [("error", .jstr "Gemini API error"),
                                ("status", .jnum 429),
                                ("details", .jobj [("error", .jstr "rate limited")])]))⟩,
           some ⟨ChatFn.apiUrlBase ++ "secret", [userTextTurn (.jstr "hi")],
                 fixedGenerationConfig, ChatFn.chatSafetySettings⟩) := by rfl
    have h := c3_upstream_status_amended.1 _ _ 429 "quota" _ _ _ (by decide) hrun
    rw [hrun, respOf]
  · have hrun : Worker.fetch "POST" (.ok (.jobj [("message", .jstr "hi")])) "secret"
        (.reached 429 "quota" (.ok (.jobj [("error", .jstr "rate limited")])))
        = (⟨200, Worker.jsonHeaders, some (.json (.jobj [("reply", .jstr Worker.fallbackReply)]))⟩,
           some ⟨Worker.apiUrlBase ++ "secret",
                 [userTextTurn (.jstr Worker.baristaPrompt), modelTextTurn Worker.ackText,
                  userTextTurn (.jstr "hi")],
                 fixedGenerationConfig, []⟩) := by rfl
    exact c3_upstream_status_amended.2 _ "secret" 429 "quota" _ _ _ (by decide) hrun

/-- Claim C4 counterexample: the Worker answers OPTIONS with the Response
constructor default status 200, not 204. -/
theorem c4_preflight_counterexample :
    (Worker.fetch "OPTIONS" (.error "ignored") "" (.unreachable "ignored")).1.status = 200
    ∧ (Worker.fetch "OPTIONS" (.error "ignored") "" (.unreachable "ignored")).1.status ≠ 204 := by
  constructor
  · rfl
  · decide

/-- Claim C4 (amended): the Pages Function answers every OPTIONS request
with 204, exactly the three CORS headers, and an empty body; the Worker
answers every OPTIONS request with the same three headers and an empty
body, but with the Response default status 200 instead of 204. -/
theorem c4_preflight_amended :
    ChatFn.onRequestOptions
      = ⟨204, [("Access-Control-Allow-Origin", "*"),
               ("Access-Control-Allow-Methods", "POST, OPTIONS"),
               ("Access-Control-Allow-Headers", "Content-Type")], none⟩
    ∧ ∀ (body : Except String JVal) (k : String) (u : Upstream),
        Worker.fetch "OPTIONS" body k u
          = (⟨200, [("Access-Control-Allow-Origin", "*"),
                    ("Access-Control-Allow-Methods", "POST, OPTIONS"),
                    ("Access-Control-Allow-Headers", "Content-Type")], none⟩, none) := by
  exact ⟨rfl, fun body k u => rfl⟩

/-- Claim C5 counterexample: a `null` entry in the trailing history window
does cause the request to fail: the Pages Function throws an uncaught
TypeError (property access on null), and the Worker turns the same throw
into an HTTP 500 via its catch block. -/
theorem c5_malformed_history_counterexample :
    exceptCrashed (ChatFn.onRequestPost
        (.ok (.jobj [("message", .jstr "hi"), ("history", .jarr [.jnull]),
                     ("systemPrompt", .jstr "p")]))
        "secret" (.reached 200 "ok" (.ok (.jobj [("candidates", .jarr [])])))) = true
    ∧ (Worker.fetch "POST"
        (.ok (.jobj [("message", .jstr "hi"), ("history", .jarr [.jnull]),
                     ("systemPrompt", .jstr "p")]))
        "secret" (.reached 200 "ok" (.ok (.jobj [("candidates", .jarr [])])))).1.status = 500 := by
  constructor <;> rfl

/-- Claim C5 (amended): within the trailing window, non-nullish entries
failing the shape check of the variant (Pages Function: truthy `role` and array
`parts`; Worker: truthy `role` and truthy `parts`) are excluded from the
payload without failing the request, and the non-nullish entries passing
the check are forwarded as their (role, parts) pair in original order; but
a `null` or `undefined` entry makes the history loop throw, which does
fail the request. -/
theorem c5_malformed_history_amended :
    (∀ l : List JVal, (∀ t ∈ l, t.nullish = false) →
      ChatFn.histTurns l = .ok ((l.filter chatShapeOk).map toPTurn)
      ∧ Worker.histTurns l = .ok ((l.filter workerShapeOk).map toPTurn))
    ∧ (∀ l : List JVal, (∃ t ∈ l, t.nullish = true) →
      exceptCrashed (ChatFn.histTurns l) = true
      ∧ exceptCrashed (Worker.histTurns l) = true) := by
  exact ⟨fun l h => ⟨ChatFn.histTurns_eq_filter l h, Worker.workerHistTurns_eq_filter l h⟩,
         fun l h => ⟨ChatFn.histTurns_crashes l h, Worker.workerHistTurns_crashes l h⟩⟩

theorem c5_malformed_history_witness :
    (ChatFn.histTurns [.jobj [("role", .jstr "user"), ("parts", .jarr [])],
                       .jobj [("role", .jstr "x")]]
        = .ok [⟨.jstr "user", .jarr []⟩]
      ∧ Worker.histTurns [.jobj [("role", .jstr "user"), ("parts", .jarr [])],
                          .jobj [("role", .jstr "x")]]
          = .ok [⟨.jstr "user", .jarr []⟩])
    ∧ (exceptCrashed (ChatFn.histTurns [.jnull]) = true
      ∧ exceptCrashed (Worker.histTurns [.jnull]) = true) := by
  constructor
  · have h := c5_malformed_history_amended.1
      [.jobj [("role", .jstr "user"), ("parts", .jarr [])], .jobj [("role", .jstr "x")]]
      (by decide)
    simpa using h
  · exact c5_malformed_history_amended.2 [.jnull] ⟨.jnull, by simp, rfl⟩

/-- Claim C6 counterexample: with an upstream 2xx whose candidate has no
reply text but a present, empty-string `finishReason`, the relay reports
`"UNKNOWN"` even though the `finishReason` of the candidate is present and is
not `"UNKNOWN"`: the `||` default fires on every falsy value, not only on
absent ones. -/
theorem c6_no_reply_counterexample :
    respOf (ChatFn.onRequestPost (.ok (.jobj [("message", .jstr "hi")])) "secret"
        (.reached 200 "resp"
          (.ok (.jobj [("candidates", .jarr [.jobj [("finishReason", .jstr "")]])]))))
      = some ⟨502, ChatFn.corsHeaders,
          some (.json (.jobj [("error", .jstr "No reply from Gemini"),
                              ("finishReason", .jstr "UNKNOWN")]))⟩
    ∧ (ChatFn.candidateOf
        (.jobj [("candidates", .jarr [.jobj [("finishReason", .jstr "")]])])).optProp
          "finishReason" = .jstr ""
    ∧ ("UNKNOWN" : String) ≠ "" := by
  refine ⟨rfl, rfl, by decide⟩

/-- Claim C6 (amended): for every upstream 2xx response whose parsed body
has no truthy first-candidate first-part text, the Pages Function returns
502 with a `finishReason` field equal to the `finishReason` of the candidate
when that value is truthy, and `"UNKNOWN"` when it is absent or otherwise
falsy (empty string, 0, false, null). -/
theorem c6_no_reply_amended (body : Except String JVal) (k : String) (s : Nat)
    (text : String) (data : JVal) (r : Resp) (c : OutboundCall)
    (hok : respOk s = true)
    (hnr : (ChatFn.replyOf data).truthy = false)
    (h : ChatFn.onRequestPost body k (.reached s text (.ok data)) = .ok (r, some c)) :
    r = ⟨502, ChatFn.corsHeaders,
          some (.json (.jobj [("error", .jstr "No reply from Gemini"),
            ("finishReason",
              if ((ChatFn.candidateOf data).optProp "finishReason").truthy
              then (ChatFn.candidateOf data).optProp "finishReason"
              else .jstr "UNKNOWN")]))⟩ := by
  have hinv := ChatFn.onRequestPost_call_inv body k _ r c h
  have hr : r = (ChatFn.callUpstream c (.reached s text (.ok data))).1 := by rw [hinv]
  rw [hr]
  simp [ChatFn.callUpstream, hok, ChatFn.normalize, hnr]

theorem c6_no_reply_witness :
    respOf (ChatFn.onRequestPost (.ok (.jobj [("message", .jstr "hi")])) "secret"
        (.reached 200 "resp"
          (.ok (.jobj [("candidates", .jarr [.jobj [("finishReason", .jstr "SAFETY")]])]))))
      = some ⟨502, ChatFn.corsHeaders,
          some (.json (.jobj [("error", .jstr "No reply from Gemini"),
                              ("finishReason", .jstr "SAFETY")]))⟩ := by
  have hrun : ChatFn.onRequestPost (.ok (.jobj [("message", .jstr "hi")])) "secret"
      (.reached 200 "resp"
        (.ok (.jobj [("candidates", .jarr [.jobj [("finishReason", .jstr "SAFETY")]])])))
      = .ok (⟨502, ChatFn.corsHeaders,
          some (.json (.jobj [("error", .jstr "No reply from Gemini"),
                              ("finishReason", .jstr "SAFETY")]))⟩,
         some ⟨ChatFn.apiUrlBase ++ "secret", [userTextTurn (.jstr "hi")],
               fixedGenerationConfig, ChatFn.chatSafetySettings⟩) := by rfl
  have h := c6_no_reply_amended _ _ 200 "resp" _ _ _ (by decide) (by decide) hrun
  rw [hrun, respOf]

/-- Claim C7 counterexample: in the Pages Function, an absent
`systemPrompt` defaults to the empty string, which is falsy, so no priming
pair is added at all: the payload sent upstream is exactly the single
final user turn. -/
theorem c7_default_persona_counterexample :
    sentContents (ChatFn.onRequestPost (.ok (.jobj [("message", .jstr "hi")])) "secret"
        (.reached 200 "ok" (.ok (.jobj [("candidates", .jarr [])]))))
      = some [userTextTurn (.jstr "hi")]
    ∧ (sentContents (ChatFn.onRequestPost (.ok (.jobj [("message", .jstr "hi")])) "secret"
        (.reached 200 "ok" (.ok (.jobj [("candidates", .jarr [])]))))).map List.length
      = some 1 := by
  exact ⟨rfl, rfl⟩

/-- Claim C7 (amended): when `systemPrompt` is absent from a valid request,
the Worker still primes the conversation — always with its hardcoded
barista persona pair, ignoring the caller-supplied `systemPrompt` entirely —
while the Pages Function defaults `systemPrompt` to the empty string and
adds no priming pair at all. -/
theorem c7_default_persona_amended
    (m : String) (hs : List JVal) (k : String) (u : Upstream)
    (hm : m ≠ "") (hall : ∀ t ∈ hs, t.nullish = false) (hk : k ≠ "") :
    sentContents (ChatFn.onRequestPost
        (.ok (.jobj [("message", .jstr m), ("history", .jarr hs)])) k u)
      = some (((sliceLast10 hs).filter chatShapeOk).map toPTurn ++ [userTextTurn (.jstr m)])
    ∧ (Worker.fetch "POST" (.ok (.jobj [("message", .jstr m), ("history", .jarr hs)]))
        k u).2.map OutboundCall.contents
      = some ([userTextTurn (.jstr Worker.baristaPrompt), modelTextTurn Worker.ackText]
          ++ ((sliceLast10 hs).filter workerShapeOk).map toPTurn
          ++ [userTextTurn (.jstr m)]) := by
  have hallW : ∀ t ∈ sliceLast10 hs, t.nullish = false :=
    fun t ht => hall t (List.drop_subset _ _ ht)
  constructor
  · have hbc : ChatFn.buildContents (.jstr "") (.jarr hs) (.jstr m)
        = .ok (((sliceLast10 hs).filter chatShapeOk).map toPTurn ++ [userTextTurn (.jstr m)]) := by
      simp [ChatFn.buildContents, JVal.truthy, ChatFn.histTurns_eq_filter _ hallW]
    simp [ChatFn.onRequestPost, JVal.prop, lookupField, JVal.truthy_jstr,
      JVal.isString_jstr, JVal.isUndefined, hm, hk, hbc, sentContents_ok_callUpstream]
  · have hbc := Worker.workerBuildContents_eq hs (.jstr m) hallW
    rw [Worker.fetch_post_snd]
    simp [Worker.tryBlock, JVal.prop, lookupField, JVal.isUndefined, hk, hbc,
      Worker.callUpstream_tryCallOf]

theorem c7_default_persona_witness :
    sentContents (ChatFn.onRequestPost
        (.ok (.jobj [("message", .jstr "hello"), ("history", .jarr [])])) "secret"
        (.unreachable "down"))
      = some [userTextTurn (.jstr "hello")]
    ∧ (Worker.fetch "POST"
        (.ok (.jobj [("message", .jstr "hello"), ("history", .jarr [])])) "secret"
        (.unreachable "down")).2.map OutboundCall.contents
      = some [userTextTurn (.jstr Worker.baristaPrompt), modelTextTurn Worker.ackText,
              userTextTurn (.jstr "hello")] := by
  have h := c7_default_persona_amended "hello" [] "secret" (.unreachable "down")
    (by decide) (by decide) (by decide)
  simpa using h

/-- Claim C8 counterexample: on a POST whose body is not valid JSON the
Worker does not return 400: the parse exception reaches the generic catch,
which answers 500 with the raw error message. -/
theorem c8_invalid_json_counterexample :
    (Worker.fetch "POST" (.error "Unexpected token") "secret" (.unreachable "x")).1.status = 500
    ∧ (Worker.fetch "POST" (.error "Unexpected token") "secret" (.unreachable "x")).1.status ≠ 400 := by
  constructor
  · rfl
  · decide

/-- Claim C8 (amended): on a body that fails JSON parsing, neither variant
calls upstream; the Pages Function returns 400 with the `Invalid JSON
body` error, while the Worker returns 500 with the parse error message in
the `error` field. -/
theorem c8_invalid_json_amended (e : String) (k : String) (u : Upstream) :
    ChatFn.onRequestPost (.error e) k u
      = .ok (⟨400, ChatFn.corsHeaders,
          some (.json (.jobj [("error", .jstr "Invalid JSON body")]))⟩, none)
    ∧ Worker.fetch "POST" (.error e) k u
      = (⟨500, Worker.jsonHeaders, some (.json (.jobj [("error", .jstr e)]))⟩, none) := by
  exact ⟨rfl, rfl⟩

/-- Claim C9 counterexample: the Worker does not mask every failure behind
a 200: when the upstream fetch itself throws (unreachable upstream), the
catch block answers HTTP 500, exposing an error status to the caller. -/
theorem c9_mask_failures_counterexample :
    (Worker.fetch "POST" (.ok (.jobj [("message", .jstr "hi")])) "secret"
        (.unreachable "connection refused")).1.status = 500
    ∧ (Worker.fetch "POST" (.ok (.jobj [("message", .jstr "hi")])) "secret"
        (.unreachable "connection refused")).1.status ≠ 200 := by
  constructor
  · rfl
  · decide

/-- Claim C9 (amended): the Worker masks behind HTTP 200 with the fixed
fallback reply exactly the failures in which the upstream response body
parses to non-nullish JSON but no truthy reply text can be extracted
(which covers non-2xx upstream statuses with JSON bodies, empty candidate
lists and safety blocks); but a transport failure or an unparsable
upstream body throws inside the try block and is answered HTTP 500 with
the error message, not masked. -/
theorem c9_mask_failures_amended :
    (∀ (body : Except String JVal) (k : String) (s : Nat) (text : String)
       (data : JVal) (r : Resp) (c : OutboundCall),
      data.nullish = false →
      (Worker.replyOf data).truthy = false →
      Worker.fetch "POST" body k (.reached s text (.ok data)) = (r, some c) →
      r = ⟨200, Worker.jsonHeaders,
            some (.json (.jobj [("reply", .jstr Worker.fallbackReply)]))⟩)
    ∧ (∀ (body : Except String JVal) (k : String) (msg : String) (r : Resp) (c : OutboundCall),
      Worker.fetch "POST" body k (.unreachable msg) = (r, some c) →
      r = ⟨500, Worker.jsonHeaders, some (.json (.jobj [("error", .jstr msg)]))⟩)
    ∧ (∀ (body : Except String JVal) (k : String) (s : Nat) (text : String) (pe : String)
       (r : Resp) (c : OutboundCall),
      Worker.fetch "POST" body k (.reached s text (.error pe)) = (r, some c) →
      r = ⟨500, Worker.jsonHeaders, some (.json (.jobj [("error", .jstr pe)]))⟩) := by
  refine ⟨?_, ?_, ?_⟩
  · intro body k s text data r c hd hnr h
    rcases Worker.fetch_call_inv body k _ r c h with hok | ⟨e, herr, _⟩
    · rw [Worker.callUpstream, JVal.prop_of_not_nullish data hd] at hok
      rw [Worker.replyOf] at hnr
      simp only [hnr, if_false, Bool.false_eq_true] at hok
      simp only [Except.ok.injEq, Prod.mk.injEq] at hok
      exact hok.1.symm
    · rw [Worker.callUpstream, JVal.prop_of_not_nullish data hd] at herr
      simp at herr
  · intro body k msg r c h
    rcases Worker.fetch_call_inv body k _ r c h with hok | ⟨e, herr, hr⟩
    · rw [Worker.callUpstream] at hok
      simp at hok
    · rw [Worker.callUpstream] at herr
      simp only [Except.error.injEq, Prod.mk.injEq] at herr
      rw [hr, herr.1]
  · intro body k s text pe r c h
    rcases Worker.fetch_call_inv body k _ r c h with hok | ⟨e, herr, hr⟩
    · rw [Worker.callUpstream] at hok
      simp at hok
    · rw [Worker.callUpstream] at herr
      simp only [Except.error.injEq, Prod.mk.injEq] at herr
      rw [hr, herr.1]

theorem c9_mask_failures_witness :
    (Worker.fetch "POST" (.ok (.jobj [("message", .jstr "hi")])) "secret"
        (.reached 503 "oops" (.ok (.jobj [("error", .jstr "unavailable")])))).1
      = ⟨200, Worker.jsonHeaders, some (.json (.jobj [("reply", .jstr Worker.fallbackReply)]))⟩
    ∧ (Worker.fetch "POST" (.ok (.jobj [("message", .jstr "hi")])) "secret"
        (.unreachable "connection reset")).1
      = ⟨500, Worker.jsonHeaders, some (.json (.jobj [("error", .jstr "connection reset")]))⟩
    ∧ (Worker.fetch "POST" (.ok (.jobj [("message", .jstr "hi")])) "secret"
        (.reached 200 "html body" (.error "Unexpected token"))).1
      = ⟨500, Worker.jsonHeaders, some (.json (.jobj [("error", .jstr "Unexpected token")]))⟩ := by
  refine ⟨?_, ?_, ?_⟩
  · have hrun : Worker.fetch "POST" (.ok (.jobj [("message", .jstr "hi")])) "secret"
        (.reached 503 "oops" (.ok (.jobj [("error", .jstr "unavailable")])))
        = (⟨200, Worker.jsonHeaders,
            some (.json (.jobj [("reply", .jstr Worker.fallbackReply)]))⟩,
           some ⟨Worker.apiUrlBase ++ "secret",
                 [userTextTurn (.jstr Worker.baristaPrompt), modelTextTurn Worker.ackText,
                  userTextTurn (.jstr "hi")],
                 fixedGenerationConfig, []⟩) := by rfl
    exact c9_mask_failures_amended.1 _ "secret" 503 "oops" _ _ _ (by decide) (by decide) hrun
  · have hrun : Worker.fetch "POST" (.ok (.jobj [("message", .jstr "hi")])) "secret"
        (.unreachable "connection reset")
        = (⟨500, Worker.jsonHeaders,
            some (.json (.jobj [("error", .jstr "connection reset")]))⟩,
           some ⟨Worker.apiUrlBase ++ "secret",
                 [userTextTurn (.jstr Worker.baristaPrompt), modelTextTurn Worker.ackText,
                  userTextTurn (.jstr "hi")],
                 fixedGenerationConfig, []⟩) := by rfl
    exact c9_mask_failures_amended.2.1 _ "secret" "connection reset" _ _ hrun
  · have hrun : Worker.fetch "POST" (.ok (.jobj [("message", .jstr "hi")])) "secret"
        (.reached 200 "html body" (.error "Unexpected token"))
        = (⟨500, Worker.jsonHeaders,
            some (.json (.jobj [("error", .jstr "Unexpected token")]))⟩,
           some ⟨Worker.apiUrlBase ++ "secret",
                 [userTextTurn (.jstr Worker.baristaPrompt), modelTextTurn Worker.ackText,
                  userTextTurn (.jstr "hi")],
                 fixedGenerationConfig, []⟩) := by rfl
    exact c9_mask_failures_amended.2.2 _ "secret" 200 "html body" "Unexpected token" _ _ hrun

theorem ChatFn.visibleExc_callUpstream (cont : List PTurn) (u1 u2 : String) (u : Upstream) :
    visibleExc (.ok (ChatFn.callUpstream
        ⟨u1, cont, fixedGenerationConfig, ChatFn.chatSafetySettings⟩ u))
      = visibleExc (.ok (ChatFn.callUpstream
        ⟨u2, cont, fixedGenerationConfig, ChatFn.chatSafetySettings⟩ u)) := by
  cases u with
  | unreachable m => rfl
  | reached s t p =>
    by_cases h : respOk s <;> rcases p with e | d <;>
      simp [ChatFn.callUpstream, h, visibleExc]

theorem ChatFn.onRequestPost_call_url (body : Except String JVal) (k : String) (u : Upstream)
    (r : Resp) (c : OutboundCall)
    (h : ChatFn.onRequestPost body k u = .ok (r, some c)) :
    c.url = ChatFn.apiUrlBase ++ k := by
  rcases body with e | b
  · simp [ChatFn.onRequestPost] at h
  · rcases h1 : b.prop "message" with e | msg
    · simp [ChatFn.onRequestPost, h1] at h
    · rcases h2 : b.prop "history" with e | hist
      · simp [ChatFn.onRequestPost, h1, h2] at h
      · rcases h3 : b.prop "systemPrompt" with e | sp
        · simp [ChatFn.onRequestPost, h1, h2, h3] at h
        · by_cases hval : (!msg.truthy || !msg.isString) = true
          · simp [ChatFn.onRequestPost, h1, h2, h3, hval] at h
          · by_cases hkey : k = ""
            · simp [ChatFn.onRequestPost, h1, h2, h3, hval, hkey] at h
            · rcases hbc : ChatFn.buildContents
                  (if sp.isUndefined then JVal.jstr "" else sp)
                  (if hist.isUndefined then JVal.jarr [] else hist) msg with e | cont
              · simp [ChatFn.onRequestPost, h1, h2, h3, hval, hkey, hbc] at h
              · simp only [ChatFn.onRequestPost, h1, h2, h3, hval, hkey, hbc,
                  if_false, Bool.false_eq_true] at h
                simp only [Except.ok.injEq] at h
                have hsnd := ChatFn.callUpstream_snd
                  ⟨ChatFn.apiUrlBase ++ k, cont, fixedGenerationConfig,
                   ChatFn.chatSafetySettings⟩ u
                rw [h] at hsnd
                simp at hsnd
                rw [hsnd]

theorem Worker.tryBlock_key_free (body : Except String JVal) (u : Upstream) (k₁ k₂ : String)
    (h₁ : k₁ ≠ "") (h₂ : k₂ ≠ "") :
    visTry (Worker.tryBlock body k₁ u) = visTry (Worker.tryBlock body k₂ u) := by
  rcases body with e | b
  · rfl
  · rcases h1 : b.prop "message" with e | msg
    · simp [Worker.tryBlock, h1]
    · rcases h2 : b.prop "history" with e | hist
      · simp [Worker.tryBlock, h1, h2]
      · rcases h3 : b.prop "systemPrompt" with e | sp
        · simp [Worker.tryBlock, h1, h2, h3]
        · rcases hbc : Worker.buildContents
              (if hist.isUndefined then JVal.jarr [] else hist) msg with e | cont
          · simp [Worker.tryBlock, h1, h2, h3, h₁, h₂, hbc]
          · simp only [Worker.tryBlock, h1, h2, h3, hbc, if_false, Bool.false_eq_true]
            rw [if_neg h₁, if_neg h₂]
            exact Worker.callUpstream_visTry_call_free cont fixedGenerationConfig [] _ _ u

theorem Worker.visiblePair_catchWrap
    (x y : Except (String × Option OutboundCall) (Resp × Option OutboundCall))
    (h : visTry x = visTry y) :
    visiblePair (Worker.catchWrap x) = visiblePair (Worker.catchWrap y) := by
  rcases x with ⟨ex, cx⟩ | ⟨rx, cx⟩ <;> rcases y with ⟨ey, cy⟩ | ⟨ry, cy⟩ <;>
    simp_all [visTry, visiblePair, Worker.catchWrap]

theorem Worker.tryBlock_call_url (body : Except String JVal) (k : String) (u : Upstream)
    (c : OutboundCall)
    (h : tryCallOf (Worker.tryBlock body k u) = some c) :
    c.url = Worker.apiUrlBase ++ k := by
  rcases body with e | b
  · simp [Worker.tryBlock, tryCallOf] at h
  · rcases h1 : b.prop "message" with e | msg
    · simp [Worker.tryBlock, h1, tryCallOf] at h
    · rcases h2 : b.prop "history" with e | hist
      · simp [Worker.tryBlock, h1, h2, tryCallOf] at h
      · rcases h3 : b.prop "systemPrompt" with e | sp
        · simp [Worker.tryBlock, h1, h2, h3, tryCallOf] at h
        · by_cases hkey : k = ""
          · simp [Worker.tryBlock, h1, h2, h3, hkey, tryCallOf] at h
          · rcases hbc : Worker.buildContents
                (if hist.isUndefined then JVal.jarr [] else hist) msg with e | cont
            · simp [Worker.tryBlock, h1, h2, h3, hkey, hbc, tryCallOf] at h
            · simp only [Worker.tryBlock, h1, h2, h3, hkey, hbc,
                if_false, Bool.false_eq_true] at h
              rw [Worker.callUpstream_tryCallOf] at h
              simp only [Option.some.injEq] at h
              rw [← h]

/-- Claim C10: the API key value appears only in the outbound upstream
request URL. In both variants, for a fixed request body and upstream
outcome, everything the client can observe — the full response and the
payload contents sent upstream — is identical under any two configured
(non-empty) key values, so no key value can reach a client-facing response
body; and whenever the outbound call is issued, its URL is exactly the
fixed endpoint URL with the key appended as the final `key` query
parameter. -/
theorem c10_key_isolation :
    (∀ (body : Except String JVal) (u : Upstream) (k₁ k₂ : String),
      k₁ ≠ "" → k₂ ≠ "" →
      visibleExc (ChatFn.onRequestPost body k₁ u)
        = visibleExc (ChatFn.onRequestPost body k₂ u))
    ∧ (∀ (body : Except String JVal) (u : Upstream) (k : String) (r : Resp) (c : OutboundCall),
      ChatFn.onRequestPost body k u = .ok (r, some c) →
      c.url = ChatFn.apiUrlBase ++ k)
    ∧ (∀ (method : String) (body : Except String JVal) (u : Upstream) (k₁ k₂ : String),
      k₁ ≠ "" → k₂ ≠ "" →
      visiblePair (Worker.fetch method body k₁ u)
        = visiblePair (Worker.fetch method body k₂ u))
    ∧ (∀ (method : String) (body : Except String JVal) (u : Upstream) (k : String)
       (r : Resp) (c : OutboundCall),
      Worker.fetch method body k u = (r, some c) →
      c.url = Worker.apiUrlBase ++ k) := by
  refine ⟨?_, ?_, ?_, ?_⟩
  · intro body u k₁ k₂ h₁ h₂
    rcases body with e | b
    · rfl
    · rcases hm : b.prop "message" with e | msg
      · simp [ChatFn.onRequestPost, hm]
      · rcases hh : b.prop "history" with e | hist
        · simp [ChatFn.onRequestPost, hm, hh]
        · rcases hsp : b.prop "systemPrompt" with e | sp
          · simp [ChatFn.onRequestPost, hm, hh, hsp]
          · by_cases hval : (!msg.truthy || !msg.isString) = true
            · simp [ChatFn.onRequestPost, hm, hh, hsp, hval]
            · rcases hbc : ChatFn.buildContents (if sp.isUndefined then JVal.jstr "" else sp)
                  (if hist.isUndefined then JVal.jarr [] else hist) msg with e | cont
              · simp [ChatFn.onRequestPost, hm, hh, hsp, hval, h₁, h₂, hbc]
              · simp only [ChatFn.onRequestPost, hm, hh, hsp, hval, h₁, h₂, hbc,
                  if_false, Bool.false_eq_true]
                exact ChatFn.visibleExc_callUpstream cont _ _ u
  · intro body u k r c h
    exact ChatFn.onRequestPost_call_url body k u r c h
  · intro method body u k₁ k₂ h₁ h₂
    by_cases hopt : method = "OPTIONS"
    · simp [Worker.fetch, hopt]
    · by_cases hpost : method = "POST"
      · subst hpost
        have hvis := Worker.tryBlock_key_free body u k₁ k₂ h₁ h₂
        have hfe : ∀ kk : String, Worker.fetch "POST" body kk u
            = Worker.catchWrap (Worker.tryBlock body kk u) := by
          intro kk; simp [Worker.fetch]
        rw [hfe, hfe]
        exact Worker.visiblePair_catchWrap _ _ hvis
      · simp [Worker.fetch, hopt, hpost]
  · intro method body u k r c h
    by_cases hopt : method = "OPTIONS"
    · rw [hopt] at h
      simp [Worker.fetch] at h
    · by_cases hpost : method = "POST"
      · subst hpost
        have hsnd := Worker.fetch_post_snd body k u
        rw [h] at hsnd
        simp at hsnd
        exact Worker.tryBlock_call_url body k u c hsnd.symm
      · simp [Worker.fetch, hopt, hpost] at h

theorem c10_key_isolation_witness :
    visibleExc (ChatFn.onRequestPost (.ok (.jobj [("message", .jstr "hi")])) "keyone"
        (.reached 200 "ok" (.ok (.jobj [("candidates", .jarr [])]))))
      = visibleExc (ChatFn.onRequestPost (.ok (.jobj [("message", .jstr "hi")])) "keytwo"
        (.reached 200 "ok" (.ok (.jobj [("candidates", .jarr [])]))))
    ∧ sentUrl (ChatFn.onRequestPost (.ok (.jobj [("message", .jstr "hi")])) "keyone"
        (.reached 200 "ok" (.ok (.jobj [("candidates", .jarr [])]))))
      = some (ChatFn.apiUrlBase ++ "keyone")
    ∧ visiblePair (Worker.fetch "POST" (.ok (.jobj [("message", .jstr "hi")])) "keyone"
        (.unreachable "down"))
      = visiblePair (Worker.fetch "POST" (.ok (.jobj [("message", .jstr "hi")])) "keytwo"
        (.unreachable "down"))
    ∧ (Worker.fetch "POST" (.ok (.jobj [("message", .jstr "hi")])) "keyone"
        (.unreachable "down")).2.map OutboundCall.url
      = some (Worker.apiUrlBase ++ "keyone") := by
  refine ⟨?_, ?_, ?_, ?_⟩
  · exact c10_key_isolation.1 _ _ "keyone" "keytwo" (by decide) (by decide)
  · have hrun : ChatFn.onRequestPost (.ok (.jobj [("message", .jstr "hi")])) "keyone"
        (.reached 200 "ok" (.ok (.jobj [("candidates", .jarr [])]))) = .ok
        (⟨502, ChatFn.corsHeaders,
          some (.json (.jobj [("error", .jstr "No reply from Gemini"),
                              ("finishReason", .jstr "UNKNOWN")]))⟩,
         some ⟨ChatFn.apiUrlBase ++ "keyone", [userTextTurn (.jstr "hi")],
               fixedGenerationConfig, ChatFn.chatSafetySettings⟩) := by rfl
    have hurl := c10_key_isolation.2.1 _ _ "keyone" _ _ hrun
    rw [hrun, sentUrl, hurl]
  · exact c10_key_isolation.2.2.1 "POST" _ _ "keyone" "keytwo" (by decide) (by decide)
  · have hrun : Worker.fetch "POST" (.ok (.jobj [("message", .jstr "hi")])) "keyone"
        (.unreachable "down") = (⟨500, Worker.jsonHeaders,
          some (.json (.jobj [("error", .jstr "down")]))⟩,
         some ⟨Worker.apiUrlBase ++ "keyone",
               [userTextTurn (.jstr Worker.baristaPrompt), modelTextTurn Worker.ackText,
                userTextTurn (.jstr "hi")],
               fixedGenerationConfig, []⟩) := by rfl
    have hurl := c10_key_isolation.2.2.2 "POST" _ _ "keyone" _ _ hrun
    rw [hrun]
    simp [hurl]
